import Mathlib

/-!
Verification model of `variance.py`, the year-over-year sales reconciliation
script.  Strings are modelled as `List Char`, pandas cells as `Option String`
(`none` is a NaN cell), and numeric values as `ℚ` (the claims are about the
exact arithmetic policy, not float rounding).  Pandas `groupby` sorts its
group keys; that affects only output row order, which no claim depends on,
so grouped keys are modelled in first-seen order.
-/

set_option autoImplicit false

namespace Variance

/-- Item codes after cleaning: plain character lists. -/
abbrev Key := List Char

/-- ASCII whitespace test, modelling the characters `str.strip` removes. -/
def isWsChar (c : Char) : Bool := c.toNat = 32 || (9 ≤ c.toNat && c.toNat ≤ 13)

/-- ASCII uppercasing of a single character, modelling `str.upper`. -/
def toUpperAscii (c : Char) : Char :=
  if 97 ≤ c.toNat ∧ c.toNat ≤ 122 then Char.ofNat (c.toNat - 32) else c

/-- The characters kept by the regex replacement that deletes every
character outside the A-Z and 0-9 ranges. -/
def isKeptAlnum (c : Char) : Bool :=
  (65 ≤ c.toNat && c.toNat ≤ 90) || (48 ≤ c.toNat && c.toNat ≤ 57)

/-- Model of str.strip: drop whitespace from both ends. -/
def stripChars (cs : List Char) : List Char :=
  ((cs.dropWhile isWsChar).reverse.dropWhile isWsChar).reverse

/-- The function clean_item_code from variance.py: strip, uppercase, then delete every
character that is not an ASCII uppercase letter or digit. -/
def clean_item_code (cs : List Char) : List Char :=
  ((stripChars cs).map toUpperAscii).filter isKeptAlnum

theorem isKeptAlnum_toUpperAscii {c : Char} (h : isKeptAlnum c = true) :
    toUpperAscii c = c := by
  simp only [isKeptAlnum, Bool.or_eq_true, Bool.and_eq_true, decide_eq_true_eq] at h
  unfold toUpperAscii
  rcases h with h | h <;> rw [if_neg] <;> omega

theorem isKeptAlnum_not_ws {c : Char} (h : isKeptAlnum c = true) :
    isWsChar c = false := by
  simp only [isKeptAlnum, Bool.or_eq_true, Bool.and_eq_true, decide_eq_true_eq] at h
  simp only [isWsChar, Bool.or_eq_false_iff, Bool.and_eq_false_iff,
    decide_eq_false_iff_not, Bool.and_eq_false_imp, decide_eq_true_eq]
  omega

theorem dropWhile_eq_self_of_not {p : Char → Bool} {l : List Char}
    (h : ∀ c ∈ l, p c = false) : l.dropWhile p = l := by
  cases l with
  | nil => rfl
  | cons a l => rw [List.dropWhile_cons, h a (List.mem_cons_self a l)]; simp

theorem stripChars_eq_self {l : List Char} (h : ∀ c ∈ l, isWsChar c = false) :
    stripChars l = l := by
  unfold stripChars
  rw [dropWhile_eq_self_of_not h, dropWhile_eq_self_of_not, List.reverse_reverse]
  intro c hc
  exact h c (List.mem_reverse.mp hc)

theorem map_eq_self_of {α : Type} {f : α → α} {l : List α}
    (h : ∀ c ∈ l, f c = c) : l.map f = l := by
  induction l with
  | nil => rfl
  | cons a l ih =>
    rw [List.map_cons, h a (List.mem_cons_self a l),
      ih (fun c hc => h c (List.mem_cons_of_mem a hc))]

theorem mem_clean_item_code {c : Char} {cs : List Char}
    (h : c ∈ clean_item_code cs) : isKeptAlnum c = true :=
  (List.mem_filter.mp h).2

/-- All claims below refer to the cleaned-code pipeline; cleaning is
idempotent because its output contains only uppercase alphanumerics. -/
theorem clean_item_code_idem (cs : List Char) :
    clean_item_code (clean_item_code cs) = clean_item_code cs := by
  obtain ⟨r, hr, hmem⟩ :
      ∃ r, clean_item_code cs = r ∧ ∀ c ∈ r, isKeptAlnum c = true :=
    ⟨_, rfl, fun c hc => mem_clean_item_code hc⟩
  rw [hr]
  show ((stripChars r).map toUpperAscii).filter isKeptAlnum = r
  rw [stripChars_eq_self (fun c hc => isKeptAlnum_not_ws (hmem c hc))]
  rw [map_eq_self_of (fun c hc => isKeptAlnum_toUpperAscii (hmem c hc))]
  exact List.filter_eq_self.mpr hmem

/-- C3: the key-cleaning function `clean_item_code` is pure and idempotent,
and it identifies `" ab-12 "` with `"AB12"`. -/
theorem C3_clean_item_code_idempotent :
    (∀ cs : List Char, clean_item_code (clean_item_code cs) = clean_item_code cs)
      ∧ clean_item_code " ab-12 ".data = clean_item_code "AB12".data := by
  refine ⟨clean_item_code_idem, ?_⟩
  decide

/-- Model of astype(str) on one cell: a NaN cell prints as the string `"nan"`. -/
def strCell (cell : Option String) : List Char :=
  match cell with
  | none => "nan".data
  | some s => s.data

/-- Applying `clean_item_code` to one raw `Item_Code` cell.  The result is
always an actual string (`some`), never NaN, because `astype(str)` has
already turned NaN into `"nan"`. -/
def cleanCodeCell (cell : Option String) : Option Key :=
  some (clean_item_code (strCell cell))

/-- Model of dropna on the cleaned code column: keep the non-NaN cells. -/
def dropnaCodes (col : List (Option Key)) : List Key :=
  col.filterMap id

/-- Lines 93-97 of `variance.py`: clean the `Item_Code` column, then drop
NaN entries. -/
def pipelineCodes (col : List (Option String)) : List Key :=
  dropnaCodes (col.map cleanCodeCell)

/-- Line 118-119: the set of item codes of one dataset. -/
def codesOfColumn (col : List (Option String)) : Finset Key :=
  (pipelineCodes col).toFinset

/-- Line 122: `lost_codes = codes_2024 - codes_2025`. -/
def lost_codes (k24 k25 : Finset Key) : Finset Key := k24 \ k25

/-- Line 123: `new_codes = codes_2025 - codes_2024`. -/
def new_codes (k24 k25 : Finset Key) : Finset Key := k25 \ k24

/-- Line 124: `retained_codes = codes_2024 ∩ codes_2025`. -/
def retained_codes (k24 k25 : Finset Key) : Finset Key := k24 ∩ k25

/-- C1: for every pair of input code columns, the lost / new / retained key
sets are pairwise disjoint and their union is the union of the two key sets. -/
theorem C1_set_reconciliation_partition (c24 c25 : List (Option String)) :
    (lost_codes (codesOfColumn c24) (codesOfColumn c25) ∪
        new_codes (codesOfColumn c24) (codesOfColumn c25) ∪
        retained_codes (codesOfColumn c24) (codesOfColumn c25)
      = codesOfColumn c24 ∪ codesOfColumn c25)
    ∧ Disjoint (lost_codes (codesOfColumn c24) (codesOfColumn c25))
        (new_codes (codesOfColumn c24) (codesOfColumn c25))
    ∧ Disjoint (lost_codes (codesOfColumn c24) (codesOfColumn c25))
        (retained_codes (codesOfColumn c24) (codesOfColumn c25))
    ∧ Disjoint (new_codes (codesOfColumn c24) (codesOfColumn c25))
        (retained_codes (codesOfColumn c24) (codesOfColumn c25)) := by
  refine ⟨?_, ?_, ?_, ?_⟩
  · ext k
    simp only [lost_codes, new_codes, retained_codes, Finset.mem_union,
      Finset.mem_sdiff, Finset.mem_inter]
    tauto
  · rw [Finset.disjoint_left]
    intro k hk hk2
    simp only [lost_codes, new_codes, Finset.mem_sdiff] at hk hk2
    tauto
  · rw [Finset.disjoint_left]
    intro k hk hk2
    simp only [lost_codes, retained_codes, Finset.mem_sdiff,
      Finset.mem_inter] at hk hk2
    tauto
  · rw [Finset.disjoint_left]
    intro k hk hk2
    simp only [new_codes, retained_codes, Finset.mem_sdiff,
      Finset.mem_inter] at hk hk2
    tauto

/-- C4 (failing input evaluation): the record whose raw item code is
`" - "` cleans to the empty string, the `dropna` step removes nothing
(after `astype(str)` no NaN can remain), and the empty key enters the key
set used for set comparison, contradicting the claimed drop of
empty-after-stripping keys. -/
theorem C4_empty_key_not_dropped :
    pipelineCodes [some " - "] = [([] : Key)]
      ∧ ([] : Key) ∈ codesOfColumn [some " - "]
      ∧ (pipelineCodes [some " - ", none]).length = 2 := by
  refine ⟨rfl, ?_, rfl⟩
  decide

/-- C10: a NaN raw item code becomes the literal string `"NAN"`; the
`dropna` step never removes anything (every cleaned cell is a string); and
when the prior and the current dataset each contain a null-code row, the
key `"NAN"` lands in both key sets and hence in the retained set, matching
null-code rows across the two datasets. -/
theorem C10_null_codes_become_NAN (c24 c25 : List (Option String))
    (h24 : none ∈ c24) (h25 : none ∈ c25) :
    cleanCodeCell none = some "NAN".data
      ∧ (∀ col : List (Option String),
          pipelineCodes col = col.map (fun c => clean_item_code (strCell c)))
      ∧ "NAN".data ∈ retained_codes (codesOfColumn c24) (codesOfColumn c25) := by
  have hpipe : ∀ col : List (Option String),
      pipelineCodes col = col.map (fun c => clean_item_code (strCell c)) := by
    intro col
    induction col with
    | nil => rfl
    | cons a l ih =>
      simp only [pipelineCodes, dropnaCodes, cleanCodeCell, List.map_cons,
        List.filterMap_cons, id_eq] at ih ⊢
      exact congrArg _ ih
  have hmem : ∀ col : List (Option String), none ∈ col →
      "NAN".data ∈ codesOfColumn col := by
    intro col hcol
    rw [codesOfColumn, List.mem_toFinset, hpipe col]
    have : clean_item_code (strCell none) = "NAN".data := by decide
    rw [← this]
    exact List.mem_map_of_mem _ hcol
  refine ⟨by decide, hpipe, ?_⟩
  rw [retained_codes, Finset.mem_inter]
  exact ⟨hmem c24 h24, hmem c25 h25⟩

/-- Witness for C10: two one-row datasets, each with a null item code. -/
theorem C10_null_codes_become_NAN_witness :
    "NAN".data ∈ retained_codes (codesOfColumn [none]) (codesOfColumn [none, some "A1"]) :=
  (C10_null_codes_become_NAN [none] [none, some "A1"]
    (List.mem_cons_self none []) (List.mem_cons_self none [some "A1"])).2.2

/-- A row of a dataframe after cleaning: the item code is cleaned, name and
category have been `fillna`-ed, sales and quantity coerced to numbers. -/
structure CleanRow where
  Item_Code : Key
  Item_Name : String
  Category : String
  Total_Sales : ℚ
  Qty_Sold : ℚ
deriving DecidableEq

/-- Unique values in first-seen order, with an accumulator of already-seen
values.  Pandas `groupby` sorts its group keys instead; only the output row
order differs, which no claim depends on. -/
def firstSeenAux {κ : Type} [DecidableEq κ] (seen : List κ) : List κ → List κ
  | [] => []
  | k :: ks =>
    if k ∈ seen then firstSeenAux seen ks else k :: firstSeenAux (k :: seen) ks

/-- Unique values of a list in first-seen order. -/
def firstSeen {κ : Type} [DecidableEq κ] (l : List κ) : List κ :=
  firstSeenAux [] l

/-- The distinct item codes of a dataset, via unique on the code column. -/
def codesList (df : List CleanRow) : List Key :=
  firstSeen (df.map CleanRow.Item_Code)

/-- Whether a key occurs in a dataset (isin against the codes of that dataset). -/
def memCodes (df : List CleanRow) (k : Key) : Bool :=
  df.any (fun r => decide (r.Item_Code = k))

/-- The lost codes as pandas materialises them: 2024 codes absent from 2025. -/
def lost_codes_list (df24 df25 : List CleanRow) : List Key :=
  (codesList df24).filter (fun k => !(memCodes df25 k))

/-- The new codes: 2025 codes absent from 2024. -/
def new_codes_list (df24 df25 : List CleanRow) : List Key :=
  (codesList df25).filter (fun k => !(memCodes df24 k))

/-- The retained codes: 2024 codes also present in 2025. -/
def retained_codes_list (df24 df25 : List CleanRow) : List Key :=
  (codesList df24).filter (fun k => memCodes df25 k)

/-- Aggregation first on `Item_Name` within a groupby (no NaN remains after
the earlier fillna, so pandas first is the first row in input order). -/
def first_Item_Name (df : List CleanRow) (k : Key) : Option String :=
  (df.find? (fun r => decide (r.Item_Code = k))).map CleanRow.Item_Name

/-- The category_lookup frame built with drop_duplicates on the code column,
which keeps the first occurrence: the first-seen category per code. -/
def category_lookup (df : List CleanRow) (k : Key) : Option String :=
  (df.find? (fun r => decide (r.Item_Code = k))).map CleanRow.Category

/-- Groupby aggregation: sum of `Total_Sales` over the rows with code `k`. -/
def total_sales_of (df : List CleanRow) (k : Key) : ℚ :=
  ((df.filter (fun r => decide (r.Item_Code = k))).map CleanRow.Total_Sales).sum

/-- Groupby aggregation: sum of `Qty_Sold` over the rows with code `k`. -/
def total_qty_of (df : List CleanRow) (k : Key) : ℚ :=
  ((df.filter (fun r => decide (r.Item_Code = k))).map CleanRow.Qty_Sold).sum

/-- A row of the `df_lost` output table.  `Item_Name` and `Category` are
`Option`s because they come from a groupby-`first` and a left merge: `none`
models a NaN produced by an unmatched left merge. -/
structure LostRow where
  Item_Code : Key
  Item_Name : Option String
  Category : Option String
  Total_Sales : ℚ
  Total_Qty : ℚ
deriving DecidableEq

/-- A row of the `df_new` output table; name and category are group keys. -/
structure NewRow where
  Item_Code : Key
  Item_Name : String
  Category : String
  Total_Sales : ℚ
  Total_Qty : ℚ
deriving DecidableEq

/-- A row of the `df_retained` output table. -/
structure RetRow where
  Item_Code : Key
  Item_Name : Option String
  Category : Option String
  Total_Sales_2024 : ℚ
  Total_Sales_2025 : ℚ
  Total_Qty_2024 : ℚ
  Total_Qty_2025 : ℚ
  Sales_Change_AED : ℚ
  Sales_Change_Pct : ℚ
deriving DecidableEq

/-- Lines 131-137: the LOST table.  One groupby row per lost code (every
lost code occurs in `df24`), aggregating sales and quantity, taking the
first item name, then left-merging the first-seen 2024 category. -/
def df_lost (df24 df25 : List CleanRow) : List LostRow :=
  (lost_codes_list df24 df25).map (fun k =>
    { Item_Code := k
      Item_Name := first_Item_Name df24 k
      Category := category_lookup df24 k
      Total_Sales := total_sales_of df24 k
      Total_Qty := total_qty_of df24 k })

/-- The 2025 rows whose code is new (`isin(new_codes)`). -/
def newRowsOf (df24 df25 : List CleanRow) : List CleanRow :=
  df25.filter (fun r => !(memCodes df24 r.Item_Code))

/-- The group keys of the NEW table: `groupby` on the (code, name, category)
triple, one group per distinct triple. -/
def newTriples (df24 df25 : List CleanRow) : List (Key × String × String) :=
  firstSeen ((newRowsOf df24 df25).map (fun r => (r.Item_Code, r.Item_Name, r.Category)))

/-- Lines 141-145: the NEW table.  The groupby runs on the code, name and
category columns jointly, so it produces one row per distinct
(code, name, category) triple. -/
def df_new (df24 df25 : List CleanRow) : List NewRow :=
  (newTriples df24 df25).map (fun t =>
    { Item_Code := t.1
      Item_Name := t.2.1
      Category := t.2.2
      Total_Sales := (((newRowsOf df24 df25).filter
        (fun r => decide ((r.Item_Code, r.Item_Name, r.Category) = t))).map
          CleanRow.Total_Sales).sum
      Total_Qty := (((newRowsOf df24 df25).filter
        (fun r => decide ((r.Item_Code, r.Item_Name, r.Category) = t))).map
          CleanRow.Qty_Sold).sum })

/-- Lines 151-180: the RETAINED table.  Both per-year aggregations have one
row per retained code, the inner merge keeps exactly the retained codes,
the 2025 lookups supply name and category, and the year-over-year delta
columns follow the `np.where` policy of lines 176-180. -/
def df_retained (df24 df25 : List CleanRow) : List RetRow :=
  (retained_codes_list df24 df25).map (fun k =>
    { Item_Code := k
      Item_Name := first_Item_Name df25 k
      Category := category_lookup df25 k
      Total_Sales_2024 := total_sales_of df24 k
      Total_Sales_2025 := total_sales_of df25 k
      Total_Qty_2024 := total_qty_of df24 k
      Total_Qty_2025 := total_qty_of df25 k
      Sales_Change_AED := total_sales_of df25 k - total_sales_of df24 k
      Sales_Change_Pct :=
        if 0 < total_sales_of df24 k then
          ((total_sales_of df25 k - total_sales_of df24 k) / total_sales_of df24 k) * 100
        else if 0 < total_sales_of df25 k then 100 else 0 })

theorem mem_of_mem_firstSeenAux {κ : Type} [DecidableEq κ] {x : κ}
    {l seen : List κ} (h : x ∈ firstSeenAux seen l) : x ∈ l := by
  induction l generalizing seen with
  | nil => exact absurd h (List.not_mem_nil x)
  | cons a l ih =>
    rw [firstSeenAux] at h
    by_cases ha : a ∈ seen
    · rw [if_pos ha] at h
      exact List.mem_cons_of_mem a (ih h)
    · rw [if_neg ha] at h
      rcases List.mem_cons.mp h with h | h
      · exact h ▸ List.mem_cons_self a l
      · exact List.mem_cons_of_mem a (ih h)

theorem mem_of_mem_firstSeen {κ : Type} [DecidableEq κ] {x : κ} {l : List κ}
    (h : x ∈ firstSeen l) : x ∈ l :=
  mem_of_mem_firstSeenAux h

theorem firstSeenAux_nodup {κ : Type} [DecidableEq κ] (l : List κ) :
    ∀ seen : List κ,
      (firstSeenAux seen l).Nodup ∧ ∀ x ∈ firstSeenAux seen l, x ∉ seen := by
  induction l with
  | nil => intro seen; exact ⟨List.nodup_nil, by intro x hx; cases hx⟩
  | cons a l ih =>
    intro seen
    rw [firstSeenAux]
    by_cases ha : a ∈ seen
    · rw [if_pos ha]
      exact ih seen
    · rw [if_neg ha]
      obtain ⟨hnd, hni⟩ := ih (a :: seen)
      refine ⟨List.nodup_cons.mpr ⟨?_, hnd⟩, ?_⟩
      · intro hmem
        exact hni a hmem (List.mem_cons_self a seen)
      · intro x hx
        rcases List.mem_cons.mp hx with h | h
        · exact h ▸ ha
        · intro hs
          exact hni x h (List.mem_cons_of_mem a hs)

theorem firstSeen_nodup {κ : Type} [DecidableEq κ] (l : List κ) :
    (firstSeen l).Nodup :=
  (firstSeenAux_nodup l []).1

/-- C2: for every retained row, the absolute change is 2025 minus 2024
sales, and the percentage change follows the three-way zero-denominator
policy. -/
theorem C2_retained_delta_policy (df24 df25 : List CleanRow) (row : RetRow)
    (h : row ∈ df_retained df24 df25) :
    row.Sales_Change_AED = row.Total_Sales_2025 - row.Total_Sales_2024
    ∧ (0 < row.Total_Sales_2024 →
        row.Sales_Change_Pct = (row.Sales_Change_AED / row.Total_Sales_2024) * 100)
    ∧ (row.Total_Sales_2024 = 0 → 0 < row.Total_Sales_2025 →
        row.Sales_Change_Pct = 100)
    ∧ (row.Total_Sales_2024 = 0 → row.Total_Sales_2025 = 0 →
        row.Sales_Change_Pct = 0) := by
  obtain ⟨k, hk, rfl⟩ := List.mem_map.mp h
  refine ⟨rfl, ?_, ?_, ?_⟩
  · intro h24
    dsimp only at h24 ⊢
    rw [if_pos h24]
  · intro h24 h25
    dsimp only at h24 h25 ⊢
    rw [if_neg (by rw [h24]; exact lt_irrefl 0), if_pos h25]
  · intro h24 h25
    dsimp only at h24 h25 ⊢
    rw [if_neg (by rw [h24]; exact lt_irrefl 0),
      if_neg (by rw [h25]; exact lt_irrefl 0)]

/-- The retained item of the worked example: sales 100 in 2024, 150 in 2025. -/
def wKeyB : Key := "B1".data

def wDf24 : List CleanRow :=
  [{ Item_Code := wKeyB, Item_Name := "Item B", Category := "Cat",
     Total_Sales := 100, Qty_Sold := 1 }]

def wDf25 : List CleanRow :=
  [{ Item_Code := wKeyB, Item_Name := "Item B", Category := "Cat",
     Total_Sales := 150, Qty_Sold := 2 }]

def wRetRow : RetRow :=
  { Item_Code := wKeyB, Item_Name := some "Item B", Category := some "Cat",
    Total_Sales_2024 := 100, Total_Sales_2025 := 150,
    Total_Qty_2024 := 1, Total_Qty_2025 := 2,
    Sales_Change_AED := 50, Sales_Change_Pct := 50 }

theorem wRet_eval : df_retained wDf24 wDf25 = [wRetRow] := by
  norm_num [df_retained, retained_codes_list, codesList, firstSeen, firstSeenAux,
    memCodes, first_Item_Name, category_lookup, total_sales_of, total_qty_of,
    wDf24, wDf25, wRetRow, List.filter, List.find?]

theorem wRet_mem : wRetRow ∈ df_retained wDf24 wDf25 := by
  rw [wRet_eval]
  exact List.mem_cons_self wRetRow []

/-- Witness for C2 on the 100 to 150 example: change 50, percentage 50. -/
theorem C2_retained_delta_policy_witness :
    wRetRow.Sales_Change_AED = wRetRow.Total_Sales_2025 - wRetRow.Total_Sales_2024
      ∧ wRetRow.Sales_Change_Pct
          = (wRetRow.Sales_Change_AED / wRetRow.Total_Sales_2024) * 100 :=
  ⟨(C2_retained_delta_policy wDf24 wDf25 wRetRow wRet_mem).1,
   (C2_retained_delta_policy wDf24 wDf25 wRetRow wRet_mem).2.1 (by norm_num [wRetRow])⟩

def c5Key : Key := "A7".data

/-- Two 2025 rows with the same item code but different item names. -/
def c5Rows : List CleanRow :=
  [{ Item_Code := c5Key, Item_Name := "X", Category := "C",
     Total_Sales := 10, Qty_Sold := 1 },
   { Item_Code := c5Key, Item_Name := "Y", Category := "C",
     Total_Sales := 5, Qty_Sold := 1 }]

/-- C5 (counterexample): the NEW table groups by the (code, name, category)
triple, so a new code carried by rows with two different item names yields
two output rows for a single item code in its key set. -/
theorem C5_new_table_two_rows_per_code :
    (df_new [] c5Rows).map NewRow.Item_Code = [c5Key, c5Key]
      ∧ firstSeen ((df_new [] c5Rows).map NewRow.Item_Code) = [c5Key] := by
  have h : (df_new [] c5Rows).map NewRow.Item_Code
      = (newTriples [] c5Rows).map (fun t => t.1) := by
    rw [df_new, List.map_map]
    exact List.map_congr_left (fun t _ => rfl)
  rw [h]
  constructor
  · decide
  · decide

/-- C5 (amended): the LOST and RETAINED tables have exactly one row per
code in their key sets, with first-seen representative name and category;
the NEW table has exactly one row per distinct (code, name, category)
triple, in first-seen order. -/
theorem C5_one_row_per_key_amended (df24 df25 : List CleanRow) :
    ((df_lost df24 df25).map LostRow.Item_Code = lost_codes_list df24 df25)
    ∧ (lost_codes_list df24 df25).Nodup
    ∧ ((df_lost df24 df25).map LostRow.Item_Name
        = (lost_codes_list df24 df25).map (first_Item_Name df24))
    ∧ ((df_lost df24 df25).map LostRow.Category
        = (lost_codes_list df24 df25).map (category_lookup df24))
    ∧ ((df_retained df24 df25).map RetRow.Item_Code = retained_codes_list df24 df25)
    ∧ (retained_codes_list df24 df25).Nodup
    ∧ ((df_retained df24 df25).map RetRow.Item_Name
        = (retained_codes_list df24 df25).map (first_Item_Name df25))
    ∧ ((df_retained df24 df25).map RetRow.Category
        = (retained_codes_list df24 df25).map (category_lookup df25))
    ∧ ((df_new df24 df25).map (fun r => (r.Item_Code, r.Item_Name, r.Category))
        = newTriples df24 df25)
    ∧ (newTriples df24 df25).Nodup := by
  refine ⟨?_, ?_, ?_, ?_, ?_, ?_, ?_, ?_, ?_, ?_⟩
  · rw [df_lost, List.map_map]
    exact map_eq_self_of (fun c _ => rfl)
  · exact (firstSeen_nodup _).filter _
  · rw [df_lost, List.map_map]
    exact List.map_congr_left (fun k _ => rfl)
  · rw [df_lost, List.map_map]
    exact List.map_congr_left (fun k _ => rfl)
  · rw [df_retained, List.map_map]
    exact map_eq_self_of (fun c _ => rfl)
  · exact (firstSeen_nodup _).filter _
  · rw [df_retained, List.map_map]
    exact List.map_congr_left (fun k _ => rfl)
  · rw [df_retained, List.map_map]
    exact List.map_congr_left (fun k _ => rfl)
  · rw [df_new, List.map_map]
    exact map_eq_self_of (fun c _ => rfl)
  · exact firstSeen_nodup _

theorem find?_isSome_of_mem {α : Type} {p : α → Bool} {l : List α} {x : α}
    (hx : x ∈ l) (hp : p x = true) : (l.find? p).isSome = true := by
  cases h : l.find? p with
  | some a => rfl
  | none => exact absurd hp (List.find?_eq_none.mp h x hx)

/-- C9: for every LOST row, the category is the first-seen 2024 category
of its code, and the lookup always resolves (never the NaN of an
unmatched merge, so the unresolved-sentinel case is unreachable); for
every NEW row, the code, name and category come from a 2025 row; for
every RETAINED row, the category is the first-seen 2025 category of its
code and always resolves. -/
theorem C9_category_attribution (df24 df25 : List CleanRow) :
    (∀ row ∈ df_lost df24 df25,
        row.Category = category_lookup df24 row.Item_Code
          ∧ row.Category.isSome = true)
    ∧ (∀ row ∈ df_new df24 df25,
        (row.Item_Code, row.Item_Name, row.Category)
          ∈ df25.map (fun r => (r.Item_Code, r.Item_Name, r.Category)))
    ∧ (∀ row ∈ df_retained df24 df25,
        row.Category = category_lookup df25 row.Item_Code
          ∧ row.Category.isSome = true) := by
  refine ⟨?_, ?_, ?_⟩
  · intro row hrow
    obtain ⟨k, hk, rfl⟩ := List.mem_map.mp hrow
    refine ⟨rfl, ?_⟩
    have hk2 : k ∈ df24.map CleanRow.Item_Code :=
      mem_of_mem_firstSeen (List.mem_of_mem_filter hk)
    obtain ⟨r, hr, hrk⟩ := List.mem_map.mp hk2
    have hs : (df24.find? (fun r => decide (r.Item_Code = k))).isSome = true :=
      find?_isSome_of_mem hr (decide_eq_true hrk)
    show (category_lookup df24 k).isSome = true
    rw [category_lookup]
    cases hf : df24.find? (fun r => decide (r.Item_Code = k)) with
    | none => rw [hf] at hs; exact absurd hs (by simp)
    | some r0 => rfl
  · intro row hrow
    obtain ⟨t, ht, rfl⟩ := List.mem_map.mp hrow
    have ht2 : t ∈ (newRowsOf df24 df25).map
        (fun r => (r.Item_Code, r.Item_Name, r.Category)) :=
      mem_of_mem_firstSeen ht
    obtain ⟨r, hr, hrt⟩ := List.mem_map.mp ht2
    have hr25 : r ∈ df25 := List.mem_of_mem_filter hr
    exact hrt ▸ List.mem_map_of_mem _ hr25
  · intro row hrow
    obtain ⟨k, hk, rfl⟩ := List.mem_map.mp hrow
    refine ⟨rfl, ?_⟩
    obtain ⟨-, hmem⟩ := List.mem_filter.mp hk
    obtain ⟨r, hr, hp⟩ := List.any_eq_true.mp hmem
    have hs : (df25.find? (fun r => decide (r.Item_Code = k))).isSome = true :=
      find?_isSome_of_mem hr hp
    show (category_lookup df25 k).isSome = true
    rw [category_lookup]
    cases hf : df25.find? (fun r => decide (r.Item_Code = k)) with
    | none => rw [hf] at hs; exact absurd hs (by simp)
    | some r0 => rfl

def w9KeyL : Key := "L1".data

def w9KeyR : Key := "R1".data

def w9KeyN : Key := "N1".data

def w9Df24 : List CleanRow :=
  [{ Item_Code := w9KeyL, Item_Name := "Lost item", Category := "CatL",
     Total_Sales := 10, Qty_Sold := 1 },
   { Item_Code := w9KeyR, Item_Name := "Ret item", Category := "CatR",
     Total_Sales := 20, Qty_Sold := 1 }]

def w9Df25 : List CleanRow :=
  [{ Item_Code := w9KeyR, Item_Name := "Ret item B", Category := "CatR25",
     Total_Sales := 25, Qty_Sold := 1 },
   { Item_Code := w9KeyN, Item_Name := "New item", Category := "CatN",
     Total_Sales := 5, Qty_Sold := 1 }]

def w9LostRow : LostRow :=
  { Item_Code := w9KeyL, Item_Name := some "Lost item",
    Category := some "CatL", Total_Sales := 10, Total_Qty := 1 }

def w9NewRow : NewRow :=
  { Item_Code := w9KeyN, Item_Name := "New item", Category := "CatN",
    Total_Sales := 5, Total_Qty := 1 }

def w9RetRow : RetRow :=
  { Item_Code := w9KeyR, Item_Name := some "Ret item B",
    Category := some "CatR25", Total_Sales_2024 := 20, Total_Sales_2025 := 25,
    Total_Qty_2024 := 1, Total_Qty_2025 := 1,
    Sales_Change_AED := 5, Sales_Change_Pct := 25 }

theorem w9Lost_eval : df_lost w9Df24 w9Df25 = [w9LostRow] := by
  norm_num +decide [df_lost, lost_codes_list, codesList, firstSeen, firstSeenAux,
    memCodes, first_Item_Name, category_lookup, total_sales_of, total_qty_of,
    w9Df24, w9Df25, w9LostRow, w9KeyL, w9KeyR, w9KeyN, List.filter, List.find?]

theorem w9New_eval : df_new w9Df24 w9Df25 = [w9NewRow] := by
  norm_num +decide [df_new, newTriples, newRowsOf, firstSeen, firstSeenAux,
    memCodes, w9Df24, w9Df25, w9NewRow, w9KeyL, w9KeyR, w9KeyN, List.filter]

theorem w9Ret_eval : df_retained w9Df24 w9Df25 = [w9RetRow] := by
  norm_num +decide [df_retained, retained_codes_list, codesList, firstSeen, firstSeenAux,
    memCodes, first_Item_Name, category_lookup, total_sales_of, total_qty_of,
    w9Df24, w9Df25, w9RetRow, w9KeyL, w9KeyR, w9KeyN, List.filter, List.find?]

/-- Witness for C9 on datasets with one lost, one retained and one new
item: the lost category comes from 2024, the new and retained categories
from 2025, and both lookups resolve. -/
theorem C9_category_attribution_witness :
    (w9LostRow.Category = category_lookup w9Df24 w9LostRow.Item_Code
      ∧ w9LostRow.Category.isSome = true)
    ∧ ((w9NewRow.Item_Code, w9NewRow.Item_Name, w9NewRow.Category)
        ∈ w9Df25.map (fun r => (r.Item_Code, r.Item_Name, r.Category)))
    ∧ (w9RetRow.Category = category_lookup w9Df25 w9RetRow.Item_Code
      ∧ w9RetRow.Category.isSome = true) :=
  ⟨(C9_category_attribution w9Df24 w9Df25).1 w9LostRow
      (by rw [w9Lost_eval]; exact List.mem_cons_self _ []),
   (C9_category_attribution w9Df24 w9Df25).2.1 w9NewRow
      (by rw [w9New_eval]; exact List.mem_cons_self _ []),
   (C9_category_attribution w9Df24 w9Df25).2.2 w9RetRow
      (by rw [w9Ret_eval]; exact List.mem_cons_self _ [])⟩

/-- ASCII digit test. -/
def isDigitChar (c : Char) : Bool := 48 ≤ c.toNat && c.toNat ≤ 57

/-- The characters kept by the regex replacement of `clean_sales_column`,
which deletes everything outside `[\d.\-]`. -/
def isNumChar (c : Char) : Bool :=
  isDigitChar c || c.toNat = 46 || c.toNat = 45

def allDigits (cs : List Char) : Bool := cs.all isDigitChar

def digitsToNat (cs : List Char) : ℕ :=
  cs.foldl (fun a c => 10 * a + (c.toNat - 48)) 0

/-- Split at the first decimal point: integer part and, when a point is
present, everything after it. -/
def splitDotAux (acc : List Char) : List Char → List Char × Option (List Char)
  | [] => (acc.reverse, none)
  | c :: cs =>
    if c.toNat = 46 then (acc.reverse, some cs) else splitDotAux (c :: acc) cs

def splitDot (cs : List Char) : List Char × Option (List Char) :=
  splitDotAux [] cs

/-- Decimal-literal parsing as `pd.to_numeric` accepts it on the character
set that survives the cleaning regex: digits with at most one decimal
point and at least one digit (`"5."`, `".5"`, `"007"` parse; `""`, `"."`,
`"1.2.3"`, `"5-3"` do not). -/
def parseUnsigned (cs : List Char) : Option ℚ :=
  match splitDot cs with
  | (ip, none) =>
    if ip ≠ [] ∧ allDigits ip then some ((digitsToNat ip : ℚ)) else none
  | (ip, some fp) =>
    if (ip ≠ [] ∨ fp ≠ []) ∧ allDigits ip ∧ allDigits fp then
      some ((digitsToNat ip : ℚ) + (digitsToNat fp : ℚ) / (10 : ℚ) ^ fp.length)
    else none

/-- A decimal literal with an optional leading minus sign. -/
def parseNumericChars (cs : List Char) : Option ℚ :=
  match cs with
  | [] => parseUnsigned []
  | c :: rest =>
    if c.toNat = 45 then (parseUnsigned rest).map (fun q => -q)
    else parseUnsigned (c :: rest)

/-- The function clean_sales_column on one cell (lines 31-42): astype(str),
strip, delete characters outside the digit, dot and minus set, coerce with
to_numeric, then fillna(0). -/
def clean_sales_value (cell : Option String) : ℚ :=
  (parseNumericChars ((stripChars (strCell cell)).filter isNumChar)).getD 0

/-- Line 107: numeric coercion then fillna(0) on `Qty_Sold` (no character
cleanup on this column; a NaN cell coerces to 0). -/
def clean_qty_value (cell : Option String) : ℚ :=
  match cell with
  | none => 0
  | some s => (parseNumericChars (stripChars s.data)).getD 0

theorem mem_stripChars {c : Char} {l : List Char} (h : c ∈ stripChars l) :
    c ∈ l := by
  rw [stripChars, List.mem_reverse] at h
  have h2 := (List.dropWhile_sublist _).subset h
  rw [List.mem_reverse] at h2
  exact (List.dropWhile_sublist _).subset h2

/-- C8 (counterexample): the cleaning regex keeps the minus sign, so the
raw value `"-5"` coerces to the negative number `-5`, violating the
claimed `≥ 0` bound; the quantity coercion likewise keeps `-3`. -/
theorem C8_negative_survives_coercion :
    clean_sales_value (some "-5") = -5
      ∧ clean_sales_value (some "-5") < 0
      ∧ clean_qty_value (some "-3") = -3 := by
  refine ⟨?_, ?_, ?_⟩ <;>
    norm_num +decide [clean_sales_value, clean_qty_value, strCell, stripChars,
      isNumChar, isDigitChar, isWsChar, parseNumericChars, parseUnsigned,
      splitDot, splitDotAux, allDigits, digitsToNat, List.filter,
      List.dropWhile]

/-- C8 (amended): coerced sales and quantity are exact numbers; a NaN cell
and any value with no numeric character at all coerce to 0, as does any
string `to_numeric` cannot parse — but negative inputs keep their sign, so
no `≥ 0` bound holds. -/
theorem C8_unparseable_coerces_to_zero :
    clean_sales_value none = 0
    ∧ (∀ s : String, s.data.all (fun c => !(isNumChar c)) = true →
        clean_sales_value (some s) = 0)
    ∧ (∀ cell : Option String,
        parseNumericChars ((stripChars (strCell cell)).filter isNumChar) = none →
        clean_sales_value cell = 0)
    ∧ clean_qty_value none = 0
    ∧ (∀ s : String, parseNumericChars (stripChars s.data) = none →
        clean_qty_value (some s) = 0) := by
  refine ⟨by decide, ?_, ?_, rfl, ?_⟩
  · intro s hs
    rw [clean_sales_value]
    have hnil : (stripChars (strCell (some s))).filter isNumChar = [] := by
      rw [List.filter_eq_nil_iff]
      intro c hc
      have hcs : c ∈ s.data := mem_stripChars hc
      have := List.all_eq_true.mp hs c hcs
      simp only [Bool.not_eq_true'] at this
      simp [this]
    rw [hnil]
    rfl
  · intro cell h
    rw [clean_sales_value, h]
    rfl
  · intro s h
    rw [clean_qty_value, h]
    rfl

/-- Witness for C8 amended: a currency-text sales cell and a
thousands-separated quantity cell both coerce to 0. -/
theorem C8_unparseable_coerces_to_zero_witness :
    clean_sales_value (some "AED") = 0 ∧ clean_qty_value (some "1,000") = 0 :=
  ⟨C8_unparseable_coerces_to_zero.2.1 "AED" (by decide),
   C8_unparseable_coerces_to_zero.2.2.2.2 "1,000" (by decide)⟩

/-- One raw spreadsheet row after the column rename: each cell may be NaN. -/
structure RawRow where
  Item_Code : Option String
  Item_Name : Option String
  Category : Option String
  Category4 : Option String
  Total_Sales : Option String
  Qty_Sold : Option String
deriving DecidableEq

/-- One raw dataset: which optional columns exist, plus its rows. -/
structure RawTable where
  hasCategoryCol : Bool
  hasCategory4Col : Bool
  hasQtyCol : Bool
  rows : List RawRow
deriving DecidableEq

/-- Lines 64-65 and 113: per-row category of the 2024 dataset.  When the
`Category` column is missing, every row gets the dataset-identifying
sentinel; otherwise a NaN cell gets the per-row default via `fillna`. -/
def categories2024 (t : RawTable) : List String :=
  if t.hasCategoryCol then
    t.rows.map (fun r => r.Category.getD "Uncategorized (Missing)")
  else
    t.rows.map (fun _ => "Uncategorized (2024 Missing)")

/-- Lines 83-84 and 114: per-row category of the 2025 dataset.  There is no
missing-column fallback: if `Category` is absent the code only renames a
`Category4` column; when neither exists, the later unconditional
`df_2025` column access raises a `KeyError`, modelled as `none`. -/
def categories2025 (t : RawTable) : Option (List String) :=
  if t.hasCategoryCol then
    some (t.rows.map (fun r => r.Category.getD "Uncategorized (Missing)"))
  else if t.hasCategory4Col then
    some (t.rows.map (fun r => r.Category4.getD "Uncategorized (Missing)"))
  else
    none

/-- Lines 100-107: the quantity column is coerced only when it exists; no
quantity is derived from sales otherwise (the later `Qty_Sold`
aggregations then fail), modelled as `none`. -/
def qtyColumn (t : RawTable) : Option (List ℚ) :=
  if t.hasQtyCol then some (t.rows.map (fun r => clean_qty_value r.Qty_Sold))
  else none

def c6Row : RawRow :=
  { Item_Code := some "X1", Item_Name := some "Item", Category := none,
    Category4 := none, Total_Sales := some "5", Qty_Sold := some "1" }

/-- A 2025-style dataset with no `Category` and no `Category4` column. -/
def c6Table : RawTable :=
  { hasCategoryCol := false, hasCategory4Col := false, hasQtyCol := true,
    rows := [c6Row] }

/-- C6 (counterexample): a 2025 dataset whose category column is entirely
missing produces no per-record categories at all (the pipeline fails with
a `KeyError`); in particular no record receives a 2025-identifying
sentinel, so the claimed symmetric treatment of both datasets fails. -/
theorem C6_no_2025_missing_column_sentinel :
    categories2025 c6Table = none
      ∧ categories2024 c6Table
          = ["Uncategorized (2024 Missing)"] := by
  exact ⟨rfl, rfl⟩

/-- C6 (amended): only the 2024 dataset has a missing-category-column
fallback; its sentinel names the dataset and differs from the per-row
default; the 2025 dataset with neither `Category` nor `Category4` yields
no categories (failure), not a sentinel. -/
theorem C6_missing_category_column_2024_only (t : RawTable)
    (h : t.hasCategoryCol = false) :
    categories2024 t = t.rows.map (fun _ => "Uncategorized (2024 Missing)")
    ∧ "Uncategorized (2024 Missing)" ≠ "Uncategorized (Missing)"
    ∧ (t.hasCategory4Col = false → categories2025 t = none) := by
  refine ⟨?_, by decide, ?_⟩
  · rw [categories2024, if_neg (by simp [h])]
  · intro h4
    rw [categories2025, if_neg (by simp [h]), if_neg (by simp [h4])]

/-- Witness for C6 amended, on the concrete category-less table. -/
theorem C6_missing_category_column_2024_only_witness :
    categories2024 c6Table = c6Table.rows.map (fun _ => "Uncategorized (2024 Missing)")
      ∧ categories2025 c6Table = none :=
  ⟨(C6_missing_category_column_2024_only c6Table rfl).1,
   (C6_missing_category_column_2024_only c6Table rfl).2.2 rfl⟩

def c7Row : RawRow :=
  { Item_Code := some "X1", Item_Name := some "Item", Category := some "Cat",
    Category4 := none, Total_Sales := some "50", Qty_Sold := none }

/-- A dataset with a sales column but no quantity column. -/
def c7Table : RawTable :=
  { hasCategoryCol := true, hasCategory4Col := false, hasQtyCol := false,
    rows := [c7Row] }

/-- C7 (counterexample): with a sales value of 50 and no quantity column,
no quantity at all is produced — in particular not the claimed proxy
`sales / 10 = 5`.  No `sales/10` fallback exists anywhere in the code. -/
theorem C7_no_proxy_quantity :
    qtyColumn c7Table = none
      ∧ clean_sales_value c7Row.Total_Sales = 50
      ∧ qtyColumn c7Table ≠ some [clean_sales_value c7Row.Total_Sales / 10] := by
  refine ⟨rfl, ?_, ?_⟩
  · norm_num +decide [clean_sales_value, c7Row, strCell, stripChars,
      isNumChar, isDigitChar, isWsChar, parseNumericChars, parseUnsigned,
      splitDot, splitDotAux, allDigits, digitsToNat, List.filter,
      List.dropWhile]
  · intro h
    exact Option.noConfusion h

/-- C7 (amended): when the quantity column is absent the cleanup step
leaves the quantity measure absent (and downstream aggregation of
`Qty_Sold` fails); quantity is never derived from the sales value. -/
theorem C7_absent_qty_never_derived (t : RawTable)
    (h : t.hasQtyCol = false) : qtyColumn t = none := by
  rw [qtyColumn, if_neg (by simp [h])]

/-- Witness for C7 amended on the concrete quantity-less table. -/
theorem C7_absent_qty_never_derived_witness : qtyColumn c7Table = none :=
  C7_absent_qty_never_derived c7Table rfl

end Variance
